import Mathlib

/-!
Verification of the SQLAlchemy merge follow-up job
(`src/dlt/destinations/impl/sqlalchemy/merge_job.py`).

The development shallowly embeds the statement-construction logic of
`SqlalchemyMergeFollowupJob.generate_sql` and its helpers
(`_generate_key_table_clauses`, `_get_hard_delete_col_and_cond`) as
executable Lean functions over a small AST of SQL statements and clauses.
Table objects are embedded as references tagged with the dataset they live
in (target dataset, staging dataset, or an invocation-scoped temp table),
mirroring `sql_client.get_existing_table` versus
`table_obj.to_metadata(..., schema=staging_dataset_name)` versus tables
created in the local `temp_metadata`.
-/

/-- Which dataset a table object belongs to: the target dataset
(`sql_client.get_existing_table`), the staging dataset
(`to_metadata(..., schema=sql_client.staging_dataset_name)`), or the
invocation-local `temp_metadata` used for the key-set tables. -/
inductive DSet : Type
  | target
  | staging
  | temp
deriving DecidableEq, Repr

/-- A reference to a table object: dataset plus table name. -/
structure TableRef : Type where
  dataset : DSet
  name : String
deriving DecidableEq, Repr

/-- Column role hints carried by a prepared table schema
(`primary_key`, `merge_key`, `hard_delete`, `dedup_sort`, and the
`row_key` / `root_key` hints used by the base merge job). -/
inductive ColProp : Type
  | primary_key
  | merge_key
  | hard_delete
  | dedup_sort
  | row_key
  | root_key
deriving DecidableEq, Repr

/-- A column of a prepared table schema: name, declared data type
(the code only inspects whether it is `"bool"`), and its role hints. -/
structure Column : Type where
  name : String
  data_type : String
  hints : List ColProp
deriving DecidableEq, Repr

/-- A prepared table schema: name, optional parent table name (nested
tables carry one), and its ordered columns. -/
structure TableSchema : Type where
  name : String
  parent : Option String
  columns : List Column
deriving DecidableEq, Repr

/-- Modelled from the spec: `get_columns_names_with_prop` from
`dlt.common.schema.utils` (not in src/) — the names of the columns of
`table` carrying the role hint `p`, in column order (spec data model:
"optional role tags per column"). -/
def get_columns_names_with_prop (table : TableSchema) (p : ColProp) : List String :=
  (table.columns.filter (fun c => c.hints.contains p)).map (fun c => c.name)

/-- Modelled from the spec: `get_first_column_name_with_prop` from
`dlt.common.schema.utils` (not in src/) — the first column carrying the
hint, if any. -/
def get_first_column_name_with_prop (table : TableSchema) (p : ColProp) : Option String :=
  (get_columns_names_with_prop table p).head?

/-- Modelled from the spec: `is_nested_table` from
`dlt.common.schema.utils` (not in src/) — a table is nested exactly when
it has a parent (spec §3: nested tables are linked under the root). -/
def is_nested_table (table : TableSchema) : Bool :=
  table.parent.isSome

/-- Modelled from the spec: `get_dedup_sort_tuple` (not in src/) — the
optional dedup-sort column of the table.  The source computes it
(line 103) but never uses it. -/
def get_dedup_sort_tuple (table : TableSchema) : Option String :=
  get_first_column_name_with_prop table .dedup_sort

/-- Modelled from the spec: `_get_row_key_col` of the base
`SqlMergeFollowupJob` (not in src/) — the root table's row-key column
(spec §3 RowKey: exactly one per root table, tagged with the `row_key`
hint).  Well-formed chains always carry one; the default is never used
by a well-formed input. -/
def _get_row_key_col (table : TableSchema) : String :=
  (get_first_column_name_with_prop table .row_key).getD ""

/-- Modelled from the spec: `_get_root_key_col` of the base
`SqlMergeFollowupJob` (not in src/) — the root-key column of a nested
table (spec §3: every non-root table carries a root-key column, tagged
with the `root_key` hint). -/
def _get_root_key_col (table : TableSchema) : String :=
  (get_first_column_name_with_prop table .root_key).getD ""

/-- The declared data type of a named column
(`table["columns"][col_name]["data_type"]`). -/
def data_type_of (table : TableSchema) (col : String) : String :=
  match table.columns.find? (fun c => c.name == col) with
  | some c => c.data_type
  | none => ""

/-- AST of the boolean clauses the job builds: column equalities between
two table objects, NULL / TRUE / FALSE tests, conjunction, disjunction,
`sa.true()`, an EXISTS over a staging select
(`sa.exists(sa.select([sa.literal(1)]).where(cond).select_from(src))`),
and a membership test of a column against a single-column select from a
key-set table (`col.in_(select from src)`). -/
inductive Clause : Type
  | tru
  | fals
  | eqCol (a b : TableRef) (col : String)
  | isNull (a : TableRef) (col : String)
  | isNotNull (a : TableRef) (col : String)
  | isFalse (a : TableRef) (col : String)
  | isTrue (a : TableRef) (col : String)
  | andB (p q : Clause)
  | orB (p q : Clause)
  | existsSelect (src : TableRef) (cond : Clause)
  | inSelect (a : TableRef) (col : String) (src : TableRef) (srcCol : String)
deriving DecidableEq, Repr

/-- `sa.and_(*clauses)`: conjunction of a list of clauses (empty
conjunction is true). -/
def sa_and : List Clause → Clause
  | [] => .tru
  | c :: cs => cs.foldl Clause.andB c

/-- `sa.or_(*clauses)`: disjunction of a list of clauses (empty
disjunction is false). -/
def sa_or : List Clause → Clause
  | [] => .fals
  | c :: cs => cs.foldl Clause.orB c

/-- AST of the statements appended to `sqla_statements`: CREATE TABLE for
a temp key-set table, a DELETE with a WHERE clause, an INSERT ... FROM
SELECT (the SELECT reads `src` under `cond`), and DROP TABLE (never
produced by the source, present so that its absence can be stated). -/
inductive Stmt : Type
  | createTable (t : TableRef) (cols : List String)
  | dropTable (t : TableRef)
  | deleteFrom (t : TableRef) (cond : Clause)
  | insertFromSelect (dst : TableRef) (cols : List String) (src : TableRef) (cond : Clause)
deriving DecidableEq, Repr

/-- The table a statement writes to (creates, drops, deletes from, or
inserts into). -/
def Stmt.writesTo : Stmt → TableRef
  | .createTable t _ => t
  | .dropTable t => t
  | .deleteFrom t _ => t
  | .insertFromSelect dst _ _ _ => dst

/-- Whether a statement is a DELETE. -/
def Stmt.isDeleteStmt : Stmt → Bool
  | .deleteFrom _ _ => true
  | _ => false

/-- Whether a statement is an INSERT ... FROM SELECT. -/
def Stmt.isInsertStmt : Stmt → Bool
  | .insertFromSelect _ _ _ _ => true
  | _ => false

/-- Whether a statement is a CREATE TABLE. -/
def Stmt.isCreateTableStmt : Stmt → Bool
  | .createTable _ _ => true
  | _ => false

/-- Whether a statement is a DROP TABLE. -/
def Stmt.isDropTableStmt : Stmt → Bool
  | .dropTable _ => true
  | _ => false

/-- The table refs occurring in a clause. -/
def Clause.tableRefs : Clause → List TableRef
  | .tru => []
  | .fals => []
  | .eqCol a b _ => [a, b]
  | .isNull a _ => [a]
  | .isNotNull a _ => [a]
  | .isFalse a _ => [a]
  | .isTrue a _ => [a]
  | .andB p q => p.tableRefs ++ q.tableRefs
  | .orB p q => p.tableRefs ++ q.tableRefs
  | .existsSelect src c => src :: c.tableRefs
  | .inSelect a _ src _ => [a, src]

/-- Errors raised during plan generation.  `notImplemented` embeds
Python's `NotImplementedError` (source lines 122 and 152);
`unsupportedMergeConfiguration` is the configuration error of the spec's
taxonomy (§7), which the source never raises; `emptyChain` embeds the
IndexError `table_chain[0]` would raise on an empty chain. -/
inductive MergeError : Type
  | notImplemented
  | unsupportedMergeConfiguration
  | emptyChain
deriving DecidableEq, Repr

/-- The target-dataset table object for a schema
(`sql_client.get_existing_table(table["name"])`). -/
def root_table_ref (root_table : TableSchema) : TableRef :=
  ⟨.target, root_table.name⟩

/-- The staging-dataset table object
(`root_table_obj.to_metadata(..., schema=sql_client.staging_dataset_name)`). -/
def staging_root_table_ref (root_table : TableSchema) : TableRef :=
  ⟨.staging, root_table.name⟩

/-- The delete key-set table `sa.Table("delete_" + root_table_obj.name,
temp_metadata, row_key_col.copy())` (source lines 57-62). -/
def delete_temp_table_ref (root_table : TableSchema) : TableRef :=
  ⟨.temp, "delete_" ++ root_table.name⟩

/-- The insert-eligible key-set table `sa.Table("insert_" +
root_table_obj.name, temp_metadata, staging_row_key_col.copy())`
(source lines 112-116). -/
def insert_temp_table_ref (root_table : TableSchema) : TableRef :=
  ⟨.temp, "insert_" ++ root_table.name⟩

/-- `_generate_key_table_clauses` (source lines 189-220): an OR clause
with, for every primary-key column, the AND of equalities over all
primary-key columns, and, for every merge-key column, the AND of
equalities over all merge-key columns (the source's loop variable shadows
the comprehension variable, duplicating each conjunction once per key);
`sa.true()` when both key lists are empty. -/
def _generate_key_table_clauses (primary_keys merge_keys : List String)
    (root_table_obj staging_root_table_obj : TableRef) : Clause :=
  if primary_keys ≠ [] ∨ merge_keys ≠ [] then
    sa_or
      ((primary_keys.map (fun _ =>
          sa_and (primary_keys.map (fun key =>
            Clause.eqCol root_table_obj staging_root_table_obj key))))
       ++ (merge_keys.map (fun _ =>
          sa_and (merge_keys.map (fun key =>
            Clause.eqCol root_table_obj staging_root_table_obj key)))))
  else
    .tru

/-- The match clause built for a root table (source lines 32-41):
`_generate_key_table_clauses` applied to the root's primary-key and
merge-key column names and the target / staging root table objects. -/
def root_key_clause (root_table : TableSchema) : Clause :=
  _generate_key_table_clauses
    (get_columns_names_with_prop root_table .primary_key)
    (get_columns_names_with_prop root_table .merge_key)
    (root_table_ref root_table)
    (staging_root_table_ref root_table)

/-- `_get_hard_delete_col_and_cond` (source lines 167-187).  Returns the
hard-delete column name and the condition built on `table_obj`'s column:
with `invert=True` the column IS NULL, additionally OR column IS FALSE
when the declared type is `bool`; with `invert=False` the column IS NOT
NULL, or column IS TRUE when the type is `bool`. -/
def _get_hard_delete_col_and_cond (table : TableSchema) (table_obj : TableRef)
    (invert : Bool) : Option String × Option Clause :=
  match get_first_column_name_with_prop table .hard_delete with
  | none => (none, none)
  | some col_name =>
    let cond : Clause :=
      if invert then .isNull table_obj col_name else .isNotNull table_obj col_name
    let cond : Clause :=
      if data_type_of table col_name = "bool" then
        if invert then sa_or [cond, .isFalse table_obj col_name]
        else .isTrue table_obj col_name
      else cond
    (some col_name, some cond)

/-- The inverted hard-delete condition of the root table as the source
builds it (lines 97-101): note the condition is built on the TARGET root
table object `root_table_obj`, not on the staging one.  Defaults to
`sa.true()` when no hard-delete column exists, matching its only guarded
uses. -/
def not_delete_cond (root_table : TableSchema) : Clause :=
  ((_get_hard_delete_col_and_cond root_table (root_table_ref root_table) true).snd).getD .tru

/-- The root table's hard-delete column name, if any (first component of
`_get_hard_delete_col_and_cond`). -/
def hard_delete_col_name (root_table : TableSchema) : Option String :=
  (_get_hard_delete_col_and_cond root_table (root_table_ref root_table) true).fst

/-- Delete phase setup (source lines 56-76): in the materialized case,
CREATE the delete key-set table holding a copy of the row-key column and
INSERT into it the target root rows for which a staging row satisfying
the match clause exists; empty in the direct-correlated case. -/
def delete_setup_stmts (root_table : TableSchema) (rest : List TableSchema)
    (requires_temp_table_for_delete : Bool) : List Stmt :=
  if rest.length = 0 ∧ requires_temp_table_for_delete = false then []
  else
    [ .createTable (delete_temp_table_ref root_table) [_get_row_key_col root_table],
      .insertFromSelect (delete_temp_table_ref root_table) [_get_row_key_col root_table]
        (root_table_ref root_table)
        (.existsSelect (staging_root_table_ref root_table) (root_key_clause root_table)) ]

/-- Delete statements (source lines 46-52 and 78-93): a single
existence-correlated DELETE on the root table in the direct case;
otherwise, for every nested table in chain order, a DELETE of the rows
whose root-key column is in the delete key-set table, followed by a
DELETE of the root rows whose row-key column is in it. -/
def delete_stmts (root_table : TableSchema) (rest : List TableSchema)
    (requires_temp_table_for_delete : Bool) : List Stmt :=
  if rest.length = 0 ∧ requires_temp_table_for_delete = false then
    [ .deleteFrom (root_table_ref root_table)
        (.existsSelect (staging_root_table_ref root_table) (root_key_clause root_table)) ]
  else
    rest.map (fun table =>
      .deleteFrom ⟨.target, table.name⟩
        (.inSelect ⟨.target, table.name⟩ (_get_root_key_col table)
          (delete_temp_table_ref root_table) (_get_row_key_col root_table)))
    ++ [ .deleteFrom (root_table_ref root_table)
          (.inSelect (root_table_ref root_table) (_get_row_key_col root_table)
            (delete_temp_table_ref root_table) (_get_row_key_col root_table)) ]

/-- Insert phase setup (source lines 105-130): when the chain has nested
tables and a primary key or a hard-delete column is present, CREATE the
insert-eligible key-set table and INSERT into it the staging root-row
keys satisfying the inverted hard-delete condition.  The primary-key
sub-branch (lines 121-123) raises NotImplementedError before this block
completes, so only the hard-delete select (line 125) is reachable. -/
def insert_setup_stmts (root_table : TableSchema) (rest : List TableSchema) : List Stmt :=
  if 0 < rest.length ∧
      (get_columns_names_with_prop root_table .primary_key ≠ []
        ∨ (hard_delete_col_name root_table).isSome = true) then
    [ .createTable (insert_temp_table_ref root_table) [_get_row_key_col root_table],
      .insertFromSelect (insert_temp_table_ref root_table) [_get_row_key_col root_table]
        (staging_root_table_ref root_table) (not_delete_cond root_table) ]
  else []

/-- The value held by the Python variable `root_key_name` after the
delete loop (line 80): the root-key column name of the LAST nested table.
The insert loop (line 146) reads this leaked loop variable without
recomputing it per table.  Unbound (never read) when the chain has no
nested tables. -/
def leaked_root_key_name (rest : List TableSchema) : String :=
  match rest.getLast? with
  | some t => _get_root_key_col t
  | none => ""

/-- One iteration of the insert loop (source lines 133-157) for `table`:
the SELECT over the staging table is filtered by the inverted hard-delete
condition when a hard-delete column exists (else `sa.true()`), replaced
by a membership test of the TARGET table object's column against the
insert-eligible key-set table under the conditions of line 141-145, and
the INSERT copies the full column list into the target table. -/
def insert_stmt_for (root_table : TableSchema) (rest : List TableSchema)
    (table : TableSchema) : Stmt :=
  let primary_key_names := get_columns_names_with_prop root_table .primary_key
  let insert_cond : Clause :=
    if (hard_delete_col_name root_table).isSome = true then not_delete_cond root_table
    else .tru
  let insert_cond : Clause :=
    if (primary_key_names ≠ [] ∧ 0 < rest.length)
        ∨ (primary_key_names = [] ∧ is_nested_table table = true
            ∧ (hard_delete_col_name root_table).isSome = true) then
      .inSelect ⟨.target, table.name⟩
        (if is_nested_table table then leaked_root_key_name rest
          else _get_row_key_col root_table)
        (insert_temp_table_ref root_table) (_get_row_key_col root_table)
    else insert_cond
  .insertFromSelect ⟨.target, table.name⟩ (table.columns.map (fun c => c.name))
    ⟨.staging, table.name⟩ insert_cond

/-- The insert statements, one per chain table in chain order
(source lines 133-157). -/
def insert_stmts (root_table : TableSchema) (rest : List TableSchema) : List Stmt :=
  (root_table :: rest).map (insert_stmt_for root_table rest)

/-- `SqlalchemyMergeFollowupJob.generate_sql` up to rendering
(source lines 17-157): the list of statement objects appended to
`sqla_statements`, or the error raised.  `requires_temp_table_for_delete`
is the backend capability flag queried at line 46 (the method lives in
the base class outside src/ and is modelled as an explicit parameter, as
the spec's §6 capability flags prescribe).  The two `.error
.notImplemented` branches embed the raises at line 122 (primary key with
nested tables) and lines 151-152 (primary key with a single-table
chain). -/
def generate_stmts (table_chain : List TableSchema)
    (requires_temp_table_for_delete : Bool) : Except MergeError (List Stmt) :=
  match table_chain with
  | [] => .error .emptyChain
  | root_table :: rest =>
    if 0 < rest.length ∧
        (get_columns_names_with_prop root_table .primary_key ≠ []
          ∨ (hard_delete_col_name root_table).isSome = true) then
      if get_columns_names_with_prop root_table .primary_key ≠ [] then
        .error .notImplemented
      else
        .ok (delete_setup_stmts root_table rest requires_temp_table_for_delete
          ++ delete_stmts root_table rest requires_temp_table_for_delete
          ++ insert_setup_stmts root_table rest
          ++ insert_stmts root_table rest)
    else
      if get_columns_names_with_prop root_table .primary_key ≠ [] ∧ rest.length = 0 then
        .error .notImplemented
      else
        .ok (delete_setup_stmts root_table rest requires_temp_table_for_delete
          ++ delete_stmts root_table rest requires_temp_table_for_delete
          ++ insert_setup_stmts root_table rest
          ++ insert_stmts root_table rest)

/-!
## Rendering (source lines 159-165)

The SQLAlchemy compiler (`stmt.compile(sql_client.engine, ...)`) is
external to the repository; what the source itself contributes is the
final comprehension `x + ";" if not x.endswith(";") else x` over the
rendered strings.  The renderer below produces one plain SQL-ish string
per statement; the termination logic is embedded exactly.
-/

/-- Render a table reference. -/
def renderTableRef (t : TableRef) : String :=
  match t.dataset with
  | .target => "dataset." ++ t.name
  | .staging => "staging." ++ t.name
  | .temp => t.name

/-- Render a clause. -/
def renderClause : Clause → String
  | .tru => "1 = 1"
  | .fals => "1 = 0"
  | .eqCol a b col =>
      renderTableRef a ++ "." ++ col ++ " = " ++ renderTableRef b ++ "." ++ col
  | .isNull a col => renderTableRef a ++ "." ++ col ++ " IS NULL"
  | .isNotNull a col => renderTableRef a ++ "." ++ col ++ " IS NOT NULL"
  | .isFalse a col => renderTableRef a ++ "." ++ col ++ " IS FALSE"
  | .isTrue a col => renderTableRef a ++ "." ++ col ++ " IS TRUE"
  | .andB p q => "(" ++ renderClause p ++ " AND " ++ renderClause q ++ ")"
  | .orB p q => "(" ++ renderClause p ++ " OR " ++ renderClause q ++ ")"
  | .existsSelect src c =>
      "EXISTS (SELECT 1 FROM " ++ renderTableRef src ++ " WHERE " ++ renderClause c ++ ")"
  | .inSelect a col src srcCol =>
      renderTableRef a ++ "." ++ col ++ " IN (SELECT " ++ srcCol
        ++ " FROM " ++ renderTableRef src ++ ")"

/-- Render a statement. -/
def renderStmt : Stmt → String
  | .createTable t cols =>
      "CREATE TABLE " ++ renderTableRef t ++ " (" ++ String.intercalate ", " cols ++ ")"
  | .dropTable t => "DROP TABLE " ++ renderTableRef t
  | .deleteFrom t cond =>
      "DELETE FROM " ++ renderTableRef t ++ " WHERE " ++ renderClause cond
  | .insertFromSelect dst cols src cond =>
      "INSERT INTO " ++ renderTableRef dst ++ " (" ++ String.intercalate ", " cols
        ++ ") SELECT * FROM " ++ renderTableRef src ++ " WHERE " ++ renderClause cond

/-- Python's `x.endswith(";")`: the string's last character is a
semicolon. -/
def ends_with_semicolon (x : String) : Bool :=
  x.data.getLast? == some ';'

/-- The final comprehension of `generate_sql` (source lines 159-165):
append `";"` unless the rendered string already ends with one. -/
def terminate (x : String) : String :=
  if ends_with_semicolon x then x else x ++ ";"

/-- `generate_sql` end to end: the rendered, semicolon-terminated
statement strings, or the raised error. -/
def generate_sql (table_chain : List TableSchema)
    (requires_temp_table_for_delete : Bool) : Except MergeError (List String) :=
  (generate_stmts table_chain requires_temp_table_for_delete).map
    (fun stmts => stmts.map (fun stmt => terminate (renderStmt stmt)))

/-!
## Row-level evaluation semantics

For the logical claims about the match clause and the hard-delete
condition we evaluate the quantifier-free fragment of `Clause` (the
fragment `_generate_key_table_clauses` and `_get_hard_delete_col_and_cond`
produce: equalities, NULL / TRUE / FALSE tests, AND, OR, constants) at a
valuation of each table reference's columns.  The subquery forms
(`existsSelect`, `inSelect`) are not part of this fragment; theorems that
need them quantify over staging rows explicitly and only ever apply the
evaluator to subquery-free clauses. -/

/-- An SQL value: NULL, boolean, integer or text. -/
inductive Val : Type
  | null
  | bool (b : Bool)
  | int (n : Int)
  | str (s : String)
deriving DecidableEq, Repr

/-- SQL equality of two values as a filter: `x = y` is satisfied when
both are non-NULL and equal (the UNKNOWN outcome of comparing NULL
filters like false). -/
def sqlValEq (x y : Val) : Bool :=
  !(x == Val.null) && !(y == Val.null) && x == y

/-- Evaluate the quantifier-free fragment of a clause at a valuation
`env` of the columns of each table reference.  SQL three-valued logic is
irrelevant for this fragment as the source only builds equality and
NULL / TRUE / FALSE tests whose UNKNOWN outcome filters like false.
The subquery forms are outside the fragment and map to `false`; no
theorem applies the evaluator to a clause containing them. -/
def evalRowClause (env : TableRef → String → Val) : Clause → Bool
  | .tru => true
  | .fals => false
  | .eqCol a b col => sqlValEq (env a col) (env b col)
  | .isNull a col => env a col == Val.null
  | .isNotNull a col => !(env a col == Val.null)
  | .isFalse a col => env a col == Val.bool false
  | .isTrue a col => env a col == Val.bool true
  | .andB p q => evalRowClause env p && evalRowClause env q
  | .orB p q => evalRowClause env p || evalRowClause env q
  | .existsSelect _ _ => false
  | .inSelect _ _ _ _ => false

/-- The valuation pairing a target root row `t` with a staging root row
`s`: the target root table object reads from `t`, the staging one from
`s`; other table references (none occur in the match clause) read NULL. -/
def pairEnv (root_table : TableSchema) (t s : String → Val) :
    TableRef → String → Val :=
  fun ref col =>
    if ref = root_table_ref root_table then t col
    else if ref = staging_root_table_ref root_table then s col
    else Val.null

/-!
## Concrete table chains

Small prepared-table-schema inputs used to evaluate the embedded code at
specific configurations. -/

/-- A root table with neither a primary key nor a merge key (only the
synthetic row key and a payload column). -/
def nokey_table : TableSchema :=
  { name := "events", parent := none,
    columns :=
      [ { name := "_dlt_id", data_type := "text", hints := [.row_key] },
        { name := "v", data_type := "text", hints := [] } ] }

/-- A single root table with a boolean `hard_delete` column and no
primary or merge key. -/
def hd_single_table : TableSchema :=
  { name := "activities", parent := none,
    columns :=
      [ { name := "_dlt_id", data_type := "text", hints := [.row_key] },
        { name := "value", data_type := "text", hints := [] },
        { name := "deleted", data_type := "bool", hints := [.hard_delete] } ] }

/-- A root table declaring a primary key (and no dedup-sort column). -/
def pk_root_table : TableSchema :=
  { name := "users", parent := none,
    columns :=
      [ { name := "id", data_type := "bigint", hints := [.primary_key] },
        { name := "_dlt_id", data_type := "text", hints := [.row_key] } ] }

/-- A nested child of `pk_root_table`. -/
def pk_child_table : TableSchema :=
  { name := "users__addrs", parent := some "users",
    columns :=
      [ { name := "street", data_type := "text", hints := [] },
        { name := "_dlt_root_id", data_type := "text", hints := [.root_key] },
        { name := "_dlt_id", data_type := "text", hints := [.row_key] } ] }

/-- A root table with a boolean `hard_delete` column, no primary or merge
key, heading a two-table chain. -/
def hdel_root : TableSchema :=
  { name := "orders", parent := none,
    columns :=
      [ { name := "_dlt_id", data_type := "text", hints := [.row_key] },
        { name := "deleted", data_type := "bool", hints := [.hard_delete] },
        { name := "amount", data_type := "bigint", hints := [] } ] }

/-- A nested child of `hdel_root`. -/
def hdel_child : TableSchema :=
  { name := "orders__items", parent := some "orders",
    columns :=
      [ { name := "_dlt_id", data_type := "text", hints := [.row_key] },
        { name := "_dlt_root_id", data_type := "text", hints := [.root_key] },
        { name := "sku", data_type := "text", hints := [] } ] }

/-- The inverted hard-delete condition the source builds for `hdel_root`:
`deleted IS NULL OR deleted IS FALSE`, anchored at the TARGET root table
object. -/
def hdel_not_delete_cond : Clause :=
  .orB (.isNull ⟨.target, "orders"⟩ "deleted") (.isFalse ⟨.target, "orders"⟩ "deleted")

/-- The full statement plan the source generates for the chain
`[hdel_root, hdel_child]` with `requires_temp_table_for_delete = False`. -/
def hdel_plan : List Stmt :=
  [ .createTable ⟨.temp, "delete_orders"⟩ ["_dlt_id"],
    .insertFromSelect ⟨.temp, "delete_orders"⟩ ["_dlt_id"] ⟨.target, "orders"⟩
      (.existsSelect ⟨.staging, "orders"⟩ .tru),
    .deleteFrom ⟨.target, "orders__items"⟩
      (.inSelect ⟨.target, "orders__items"⟩ "_dlt_root_id" ⟨.temp, "delete_orders"⟩ "_dlt_id"),
    .deleteFrom ⟨.target, "orders"⟩
      (.inSelect ⟨.target, "orders"⟩ "_dlt_id" ⟨.temp, "delete_orders"⟩ "_dlt_id"),
    .createTable ⟨.temp, "insert_orders"⟩ ["_dlt_id"],
    .insertFromSelect ⟨.temp, "insert_orders"⟩ ["_dlt_id"] ⟨.staging, "orders"⟩
      hdel_not_delete_cond,
    .insertFromSelect ⟨.target, "orders"⟩ ["_dlt_id", "deleted", "amount"]
      ⟨.staging, "orders"⟩ hdel_not_delete_cond,
    .insertFromSelect ⟨.target, "orders__items"⟩ ["_dlt_id", "_dlt_root_id", "sku"]
      ⟨.staging, "orders__items"⟩
      (.inSelect ⟨.target, "orders__items"⟩ "_dlt_root_id" ⟨.temp, "insert_orders"⟩ "_dlt_id") ]

/-!
## Helper lemmas
-/

theorem evalRowClause_foldl_andB (env : TableRef → String → Val) (c : Clause)
    (cs : List Clause) :
    evalRowClause env (cs.foldl Clause.andB c)
      = (evalRowClause env c && cs.all (evalRowClause env)) := by
  induction cs generalizing c with
  | nil => simp
  | cons d ds ih =>
    simp only [List.foldl_cons, ih, evalRowClause, List.all_cons, Bool.and_assoc]

theorem evalRowClause_sa_and (env : TableRef → String → Val) (cs : List Clause) :
    evalRowClause env (sa_and cs) = cs.all (evalRowClause env) := by
  cases cs with
  | nil => rfl
  | cons c cs => simp [sa_and, evalRowClause_foldl_andB, List.all_cons]

theorem evalRowClause_foldl_orB (env : TableRef → String → Val) (c : Clause)
    (cs : List Clause) :
    evalRowClause env (cs.foldl Clause.orB c)
      = (evalRowClause env c || cs.any (evalRowClause env)) := by
  induction cs generalizing c with
  | nil => simp
  | cons d ds ih =>
    simp only [List.foldl_cons, ih, evalRowClause, List.any_cons, Bool.or_assoc]

theorem evalRowClause_sa_or (env : TableRef → String → Val) (cs : List Clause) :
    evalRowClause env (sa_or cs) = cs.any (evalRowClause env) := by
  cases cs with
  | nil => rfl
  | cons c cs => simp [sa_or, evalRowClause_foldl_orB, List.any_cons]

theorem any_map_const_clause (env : TableRef → String → Val) (l : List String)
    (c : Clause) :
    (l.map (fun _ => c)).any (evalRowClause env)
      = (!l.isEmpty && evalRowClause env c) := by
  induction l with
  | nil => rfl
  | cons x xs ih =>
    simp only [List.map_cons, List.any_cons, ih, List.isEmpty_cons, Bool.not_false,
      Bool.true_and]
    cases evalRowClause env c <;> simp

/-- C1: for every root table, the match predicate built between a target
root row and a staging root row is logically equivalent to the OR of (a)
the conjunction of equalities over all primary-key columns and (b) the
conjunction of equalities over all merge-key columns, with only the
present key sets contributing terms; when neither key set is present the
predicate is the constant true. -/
theorem c1_match_clause_equivalence (primary_keys merge_keys : List String)
    (a b : TableRef) (env : TableRef → String → Val) :
    evalRowClause env (_generate_key_table_clauses primary_keys merge_keys a b) = true
      ↔ ((primary_keys ≠ []
            ∧ ∀ k ∈ primary_keys, sqlValEq (env a k) (env b k) = true)
        ∨ (merge_keys ≠ []
            ∧ ∀ k ∈ merge_keys, sqlValEq (env a k) (env b k) = true)
        ∨ (primary_keys = [] ∧ merge_keys = [])) := by
  unfold _generate_key_table_clauses
  split
  case isTrue h =>
    rw [evalRowClause_sa_or, List.any_append, any_map_const_clause, any_map_const_clause,
      evalRowClause_sa_and, evalRowClause_sa_and]
    simp only [List.all_map, Function.comp, evalRowClause, Bool.or_eq_true, Bool.and_eq_true,
      Bool.not_eq_true', List.isEmpty_eq_false_iff_exists_mem, List.all_eq_true,
      List.forall_mem_map]
    constructor
    · rintro (⟨⟨x, hx⟩, hall⟩ | ⟨⟨x, hx⟩, hall⟩)
      · exact Or.inl ⟨List.ne_nil_of_mem hx, hall⟩
      · exact Or.inr (Or.inl ⟨List.ne_nil_of_mem hx, hall⟩)
    · rintro (⟨hne, hall⟩ | ⟨hne, hall⟩ | ⟨hpk, hmk⟩)
      · exact Or.inl ⟨List.exists_mem_of_ne_nil _ hne, hall⟩
      · exact Or.inr ⟨List.exists_mem_of_ne_nil _ hne, hall⟩
      · exact absurd h (by simp [hpk, hmk])
  case isFalse h =>
    push_neg at h
    simp [evalRowClause, h.1, h.2]

theorem generate_stmts_cons_eq (root_table : TableSchema) (rest : List TableSchema)
    (req : Bool) :
    generate_stmts (root_table :: rest) req
      = if 0 < rest.length ∧
            (get_columns_names_with_prop root_table .primary_key ≠ []
              ∨ (hard_delete_col_name root_table).isSome = true) then
          if get_columns_names_with_prop root_table .primary_key ≠ [] then
            .error .notImplemented
          else
            .ok (delete_setup_stmts root_table rest req ++ delete_stmts root_table rest req
              ++ insert_setup_stmts root_table rest ++ insert_stmts root_table rest)
        else
          if get_columns_names_with_prop root_table .primary_key ≠ [] ∧ rest.length = 0 then
            .error .notImplemented
          else
            .ok (delete_setup_stmts root_table rest req ++ delete_stmts root_table rest req
              ++ insert_setup_stmts root_table rest ++ insert_stmts root_table rest) := rfl

theorem generate_stmts_ok_eq (root_table : TableSchema) (rest : List TableSchema)
    (req : Bool) (stmts : List Stmt)
    (h : generate_stmts (root_table :: rest) req = .ok stmts) :
    stmts = delete_setup_stmts root_table rest req ++ delete_stmts root_table rest req
      ++ insert_setup_stmts root_table rest ++ insert_stmts root_table rest := by
  rw [generate_stmts_cons_eq] at h
  split at h
  · split at h
    · exact Except.noConfusion h
    · exact (Except.ok.inj h).symm
  · split at h
    · exact Except.noConfusion h
    · exact (Except.ok.inj h).symm

theorem delete_setup_stmts_writesTo (root_table : TableSchema) (rest : List TableSchema)
    (req : Bool) :
    ∀ x ∈ delete_setup_stmts root_table rest req,
      Stmt.writesTo x = delete_temp_table_ref root_table := by
  intro x hx
  unfold delete_setup_stmts at hx
  split at hx
  · exact absurd hx (List.not_mem_nil x)
  · simp only [List.mem_cons, List.not_mem_nil, or_false] at hx
    rcases hx with rfl | rfl
    · rfl
    · rfl

theorem delete_stmts_all_delete (root_table : TableSchema) (rest : List TableSchema)
    (req : Bool) :
    ∀ x ∈ delete_stmts root_table rest req, Stmt.isDeleteStmt x = true := by
  intro x hx
  unfold delete_stmts at hx
  split at hx
  · simp only [List.mem_cons, List.not_mem_nil, or_false] at hx
    subst hx
    rfl
  · rcases List.mem_append.mp hx with hx | hx
    · rcases List.mem_map.mp hx with ⟨t, _, rfl⟩
      rfl
    · simp only [List.mem_cons, List.not_mem_nil, or_false] at hx
      subst hx
      rfl

theorem delete_stmts_map_writesTo (root_table : TableSchema) (rest : List TableSchema)
    (req : Bool) :
    (delete_stmts root_table rest req).map Stmt.writesTo
      = if rest.length = 0 ∧ req = false then [root_table_ref root_table]
        else rest.map (fun t => (⟨DSet.target, t.name⟩ : TableRef))
          ++ [root_table_ref root_table] := by
  unfold delete_stmts
  split <;> simp [*, Stmt.writesTo, List.map_append, List.map_map, Function.comp]

theorem insert_setup_stmts_writesTo (root_table : TableSchema) (rest : List TableSchema) :
    ∀ x ∈ insert_setup_stmts root_table rest,
      Stmt.writesTo x = insert_temp_table_ref root_table := by
  intro x hx
  unfold insert_setup_stmts at hx
  split at hx
  · simp only [List.mem_cons, List.not_mem_nil, or_false] at hx
    rcases hx with rfl | rfl
    · rfl
    · rfl
  · exact absurd hx (List.not_mem_nil x)

theorem insert_stmt_for_writesTo (root_table : TableSchema) (rest : List TableSchema)
    (table : TableSchema) :
    Stmt.writesTo (insert_stmt_for root_table rest table)
      = ⟨DSet.target, table.name⟩ := by
  rfl

theorem insert_stmts_all_insert (root_table : TableSchema) (rest : List TableSchema) :
    ∀ x ∈ insert_stmts root_table rest, Stmt.isInsertStmt x = true := by
  intro x hx
  rcases List.mem_map.mp hx with ⟨t, _, rfl⟩
  rfl

theorem insert_stmts_map_writesTo (root_table : TableSchema) (rest : List TableSchema) :
    (insert_stmts root_table rest).map Stmt.writesTo
      = (root_table :: rest).map (fun t => (⟨DSet.target, t.name⟩ : TableRef)) := by
  unfold insert_stmts
  rw [List.map_map]
  rfl

theorem ends_with_semicolon_terminate (x : String) :
    ends_with_semicolon (terminate x) = true := by
  unfold terminate
  by_cases hx : ends_with_semicolon x = true
  · simp [hx]
  · rw [if_neg hx]
    unfold ends_with_semicolon
    rw [String.data_append]
    have hsemi : (";" : String).data = [';'] := rfl
    rw [hsemi, List.getLast?_concat]
    rfl

/-!
## Claim theorems
-/

/-- C2 (code evaluated at the failing input): for a chain whose root
table declares neither a primary key nor a merge key, `generate_sql`
does NOT fail — the match clause degenerates to `sa.true()` and the
returned plan's delete statement matches every target root row (the
EXISTS condition is constantly true), instead of raising
`UnsupportedMergeConfiguration` as the claim requires (the append
fallback is an unhandled TODO at source line 37). -/
theorem c2_no_keys_emits_delete_all_plan :
    root_key_clause nokey_table = Clause.tru
      ∧ generate_stmts [nokey_table] false
          = .ok [ .deleteFrom ⟨.target, "events"⟩ (.existsSelect ⟨.staging, "events"⟩ .tru),
                  .insertFromSelect ⟨.target, "events"⟩ ["_dlt_id", "v"]
                    ⟨.staging, "events"⟩ .tru ]
      ∧ (∀ env : TableRef → String → Val, evalRowClause env (root_key_clause nokey_table) = true) :=
  ⟨rfl, rfl, fun _ => rfl⟩

/-- C5 (code evaluated at the failing input): for a single-table chain
with a boolean hard-delete column, the insert statement's eligibility
condition is `deleted IS NULL OR deleted IS FALSE` built on the TARGET
root table object — every table reference in the condition lives in the
target dataset, so the staging row's own hard-delete column is never
consulted, contrary to the claim that a staging row is kept iff ITS
column is NULL or FALSE. -/
theorem c5_hard_delete_cond_on_target_table :
    generate_stmts [hd_single_table] false
      = .ok [ .deleteFrom ⟨.target, "activities"⟩
                (.existsSelect ⟨.staging, "activities"⟩ .tru),
              .insertFromSelect ⟨.target, "activities"⟩ ["_dlt_id", "value", "deleted"]
                ⟨.staging, "activities"⟩
                (.orB (.isNull ⟨.target, "activities"⟩ "deleted")
                  (.isFalse ⟨.target, "activities"⟩ "deleted")) ]
      ∧ (Clause.orB (.isNull ⟨.target, "activities"⟩ "deleted")
          (.isFalse ⟨.target, "activities"⟩ "deleted")).tableRefs.all
            (fun r => r.dataset == DSet.target) = true :=
  ⟨rfl, by decide⟩

/-- C6 (code evaluated at the failing input): in the reachable
multi-table configuration (hard-delete column, no primary key), the
nested table's insert statement copies rows from the STAGING child table
but its membership condition tests the TARGET child table object's
root-key column against the insert-eligible key set — the staging child
table never occurs in the restricting clause, contrary to the claim that
the copied staging rows are restricted by their own root-key values. -/
theorem c6_nested_insert_membership_on_target :
    generate_stmts [hdel_root, hdel_child] false = .ok hdel_plan
      ∧ hdel_plan.getLast?
          = some (.insertFromSelect ⟨.target, "orders__items"⟩
              ["_dlt_id", "_dlt_root_id", "sku"] ⟨.staging, "orders__items"⟩
              (.inSelect ⟨.target, "orders__items"⟩ "_dlt_root_id"
                ⟨.temp, "insert_orders"⟩ "_dlt_id"))
      ∧ (Clause.inSelect ⟨.target, "orders__items"⟩ "_dlt_root_id"
          ⟨.temp, "insert_orders"⟩ "_dlt_id").tableRefs.contains
            ⟨DSet.staging, "orders__items"⟩ = false :=
  ⟨rfl, rfl, by decide⟩

/-- C8 counterexample: for a two-table chain whose root declares a
primary key and no dedup-sort column, plan generation raises
`NotImplementedError` (source line 122), not the claimed
`UnsupportedMergeConfiguration`. -/
theorem c8_counterexample :
    generate_stmts [pk_root_table, pk_child_table] false = .error .notImplemented
      ∧ get_dedup_sort_tuple pk_root_table = none
      ∧ MergeError.notImplemented ≠ MergeError.unsupportedMergeConfiguration :=
  ⟨rfl, rfl, by decide⟩

/-- C8 amended: for every table chain with more than one table whose
root declares a primary key, plan generation fails with
NotImplementedError — whether or not a dedup-sort spec is supplied —
and never silently produces a plan. -/
theorem c8_pk_multi_table_not_implemented (root_table : TableSchema)
    (rest : List TableSchema) (req : Bool)
    (hpk : get_columns_names_with_prop root_table .primary_key ≠ [])
    (hrest : rest ≠ []) :
    generate_stmts (root_table :: rest) req = .error .notImplemented := by
  rw [generate_stmts_cons_eq]
  rw [if_pos ⟨List.length_pos.mpr hrest, Or.inl hpk⟩, if_pos hpk]

theorem c8_pk_multi_table_not_implemented_witness :
    get_columns_names_with_prop pk_root_table .primary_key ≠ []
      ∧ ([pk_child_table] : List TableSchema) ≠ []
      ∧ generate_stmts [pk_root_table, pk_child_table] false = .error .notImplemented :=
  ⟨by decide, by decide,
    c8_pk_multi_table_not_implemented pk_root_table [pk_child_table] false
      (by decide) (by decide)⟩

/-- C9 (code evaluated at the failing input): the generated plan for a
two-table chain with a hard-delete column creates both intermediate
key-set tables (`delete_orders` and `insert_orders`) but contains no
DROP TABLE statement at all, so the key-set tables outlive the merge
invocation. -/
theorem c9_no_drop_statement_emitted :
    generate_stmts [hdel_root, hdel_child] false = .ok hdel_plan
      ∧ hdel_plan.countP (fun x => Stmt.isCreateTableStmt x) = 2
      ∧ hdel_plan.countP (fun x => Stmt.isDropTableStmt x) = 0
      ∧ hdel_plan.all (fun x => !(Stmt.isDropTableStmt x)) = true :=
  ⟨rfl, by decide, by decide, by decide⟩

theorem delete_stmts_writesTo_target (root_table : TableSchema) (rest : List TableSchema)
    (req : Bool) :
    ∀ x ∈ delete_stmts root_table rest req, (Stmt.writesTo x).dataset = DSet.target := by
  intro x hx
  unfold delete_stmts at hx
  split at hx
  · simp only [List.mem_cons, List.not_mem_nil, or_false] at hx
    subst hx
    rfl
  · rcases List.mem_append.mp hx with hx | hx
    · rcases List.mem_map.mp hx with ⟨t, _, rfl⟩
      rfl
    · simp only [List.mem_cons, List.not_mem_nil, or_false] at hx
      subst hx
      rfl

theorem insert_stmts_writesTo_target (root_table : TableSchema) (rest : List TableSchema) :
    ∀ x ∈ insert_stmts root_table rest, (Stmt.writesTo x).dataset = DSet.target := by
  intro x hx
  rcases List.mem_map.mp hx with ⟨t, _, rfl⟩
  rfl

/-- C3: the delete phase uses the direct correlated strategy — a single
DELETE on the root table whose condition is the existence of a staging
row satisfying the match clause, with no key-set materialization —
exactly when the chain has a single table and the backend does not
require a temp table for delete; in every other case it materializes the
key set and deletes by membership. -/
theorem c3_delete_strategy_selection (root_table : TableSchema)
    (rest : List TableSchema) (req : Bool) (stmts : List Stmt)
    (h : generate_stmts (root_table :: rest) req = .ok stmts) :
    stmts = delete_setup_stmts root_table rest req ++ delete_stmts root_table rest req
        ++ insert_setup_stmts root_table rest ++ insert_stmts root_table rest
      ∧ ((rest = [] ∧ req = false) ↔
          (delete_setup_stmts root_table rest req = []
            ∧ delete_stmts root_table rest req
                = [ .deleteFrom (root_table_ref root_table)
                      (.existsSelect (staging_root_table_ref root_table)
                        (root_key_clause root_table)) ]))
      ∧ (¬(rest = [] ∧ req = false) →
          delete_setup_stmts root_table rest req
              = [ .createTable (delete_temp_table_ref root_table)
                    [_get_row_key_col root_table],
                  .insertFromSelect (delete_temp_table_ref root_table)
                    [_get_row_key_col root_table] (root_table_ref root_table)
                    (.existsSelect (staging_root_table_ref root_table)
                      (root_key_clause root_table)) ]
            ∧ delete_stmts root_table rest req
              = rest.map (fun table =>
                  .deleteFrom ⟨DSet.target, table.name⟩
                    (.inSelect ⟨DSet.target, table.name⟩ (_get_root_key_col table)
                      (delete_temp_table_ref root_table) (_get_row_key_col root_table)))
                ++ [ .deleteFrom (root_table_ref root_table)
                      (.inSelect (root_table_ref root_table) (_get_row_key_col root_table)
                        (delete_temp_table_ref root_table)
                        (_get_row_key_col root_table)) ]) := by
  refine ⟨generate_stmts_ok_eq _ _ _ _ h, ⟨?_, ?_⟩, ?_⟩
  · rintro ⟨rfl, rfl⟩
    exact ⟨by simp [delete_setup_stmts], by simp [delete_stmts]⟩
  · rintro ⟨hsetup, -⟩
    by_contra hnc
    have hcond : ¬(rest.length = 0 ∧ req = false) := by
      intro hlen
      exact hnc ⟨List.length_eq_zero.mp hlen.1, hlen.2⟩
    unfold delete_setup_stmts at hsetup
    rw [if_neg hcond] at hsetup
    exact List.noConfusion hsetup
  · intro hnc
    have hcond : ¬(rest.length = 0 ∧ req = false) := by
      intro hlen
      exact hnc ⟨List.length_eq_zero.mp hlen.1, hlen.2⟩
    constructor
    · unfold delete_setup_stmts
      rw [if_neg hcond]
    · unfold delete_stmts
      rw [if_neg hcond]

theorem c3_delete_strategy_selection_witness :
    generate_stmts [nokey_table] false
        = .ok [ .deleteFrom ⟨.target, "events"⟩ (.existsSelect ⟨.staging, "events"⟩ .tru),
                .insertFromSelect ⟨.target, "events"⟩ ["_dlt_id", "v"]
                  ⟨.staging, "events"⟩ .tru ]
      ∧ ([ .deleteFrom ⟨.target, "events"⟩ (.existsSelect ⟨.staging, "events"⟩ .tru),
           .insertFromSelect ⟨.target, "events"⟩ ["_dlt_id", "v"]
             ⟨.staging, "events"⟩ .tru ]
          = delete_setup_stmts nokey_table [] false ++ delete_stmts nokey_table [] false
            ++ insert_setup_stmts nokey_table [] ++ insert_stmts nokey_table []
        ∧ ((([] : List TableSchema) = [] ∧ false = false) ↔
            (delete_setup_stmts nokey_table [] false = []
              ∧ delete_stmts nokey_table [] false
                  = [ .deleteFrom (root_table_ref nokey_table)
                        (.existsSelect (staging_root_table_ref nokey_table)
                          (root_key_clause nokey_table)) ]))
        ∧ (¬(([] : List TableSchema) = [] ∧ false = false) →
            delete_setup_stmts nokey_table [] false
                = [ .createTable (delete_temp_table_ref nokey_table)
                      [_get_row_key_col nokey_table],
                    .insertFromSelect (delete_temp_table_ref nokey_table)
                      [_get_row_key_col nokey_table] (root_table_ref nokey_table)
                      (.existsSelect (staging_root_table_ref nokey_table)
                        (root_key_clause nokey_table)) ]
              ∧ delete_stmts nokey_table [] false
                = ([] : List TableSchema).map (fun table =>
                    .deleteFrom ⟨DSet.target, table.name⟩
                      (.inSelect ⟨DSet.target, table.name⟩ (_get_root_key_col table)
                        (delete_temp_table_ref nokey_table)
                        (_get_row_key_col nokey_table)))
                  ++ [ .deleteFrom (root_table_ref nokey_table)
                        (.inSelect (root_table_ref nokey_table)
                          (_get_row_key_col nokey_table)
                          (delete_temp_table_ref nokey_table)
                          (_get_row_key_col nokey_table)) ])) :=
  ⟨rfl, c3_delete_strategy_selection nokey_table [] false _ rfl⟩

/-- C4: in the materialized-key-set strategy the plan first creates the
key-set table and fills it with the target root-row keys for which a
matching staging row exists, then for every non-root table in chain
order deletes the rows whose root-key column is a member of the key set,
then deletes the root rows whose row-key is a member of it.  The second
conjunct records that the materialized condition ("some staging row
matches") coincides with "some staging row matches OR the row is
tombstoned by a matching staging row", for any tombstone predicate on
staging rows — the spec's "(or tombstoned)" key set is the same set. -/
theorem c4_materialized_key_set_delete (root_table : TableSchema)
    (rest : List TableSchema) (req : Bool) (stmts : List Stmt)
    (hm : ¬(rest = [] ∧ req = false))
    (h : generate_stmts (root_table :: rest) req = .ok stmts) :
    (∃ tail,
      stmts
        = [ .createTable (delete_temp_table_ref root_table) [_get_row_key_col root_table],
            .insertFromSelect (delete_temp_table_ref root_table)
              [_get_row_key_col root_table] (root_table_ref root_table)
              (.existsSelect (staging_root_table_ref root_table)
                (root_key_clause root_table)) ]
          ++ rest.map (fun table =>
              .deleteFrom ⟨DSet.target, table.name⟩
                (.inSelect ⟨DSet.target, table.name⟩ (_get_root_key_col table)
                  (delete_temp_table_ref root_table) (_get_row_key_col root_table)))
          ++ [ .deleteFrom (root_table_ref root_table)
                (.inSelect (root_table_ref root_table) (_get_row_key_col root_table)
                  (delete_temp_table_ref root_table) (_get_row_key_col root_table)) ]
          ++ tail)
      ∧ (∀ (stagingRows : List (String → Val)) (t : String → Val)
            (tombstoned : (String → Val) → Prop),
          ((∃ s ∈ stagingRows,
              evalRowClause (pairEnv root_table t s) (root_key_clause root_table) = true)
            ∨ (∃ s ∈ stagingRows,
                evalRowClause (pairEnv root_table t s) (root_key_clause root_table) = true
                  ∧ tombstoned s))
            ↔ ∃ s ∈ stagingRows,
                evalRowClause (pairEnv root_table t s) (root_key_clause root_table) = true) := by
  have hcond : ¬(rest.length = 0 ∧ req = false) := by
    intro hlen
    exact hm ⟨List.length_eq_zero.mp hlen.1, hlen.2⟩
  constructor
  · refine ⟨insert_setup_stmts root_table rest ++ insert_stmts root_table rest, ?_⟩
    rw [generate_stmts_ok_eq root_table rest req stmts h]
    unfold delete_setup_stmts delete_stmts
    rw [if_neg hcond, if_neg hcond]
    simp [List.append_assoc]
  · intro stagingRows t tombstoned
    constructor
    · rintro (hmatch | ⟨s, hs, hmatch, -⟩)
      · exact hmatch
      · exact ⟨s, hs, hmatch⟩
    · exact fun hmatch => Or.inl hmatch

theorem c4_materialized_key_set_delete_witness :
    ¬(([hdel_child] : List TableSchema) = [] ∧ false = false)
      ∧ generate_stmts [hdel_root, hdel_child] false = .ok hdel_plan
      ∧ ((∃ tail,
          hdel_plan
            = [ .createTable (delete_temp_table_ref hdel_root) [_get_row_key_col hdel_root],
                .insertFromSelect (delete_temp_table_ref hdel_root)
                  [_get_row_key_col hdel_root] (root_table_ref hdel_root)
                  (.existsSelect (staging_root_table_ref hdel_root)
                    (root_key_clause hdel_root)) ]
              ++ [hdel_child].map (fun table =>
                  .deleteFrom ⟨DSet.target, table.name⟩
                    (.inSelect ⟨DSet.target, table.name⟩ (_get_root_key_col table)
                      (delete_temp_table_ref hdel_root) (_get_row_key_col hdel_root)))
              ++ [ .deleteFrom (root_table_ref hdel_root)
                    (.inSelect (root_table_ref hdel_root) (_get_row_key_col hdel_root)
                      (delete_temp_table_ref hdel_root) (_get_row_key_col hdel_root)) ]
              ++ tail)
        ∧ (∀ (stagingRows : List (String → Val)) (t : String → Val)
              (tombstoned : (String → Val) → Prop),
            ((∃ s ∈ stagingRows,
                evalRowClause (pairEnv hdel_root t s) (root_key_clause hdel_root) = true)
              ∨ (∃ s ∈ stagingRows,
                  evalRowClause (pairEnv hdel_root t s) (root_key_clause hdel_root) = true
                    ∧ tombstoned s))
              ↔ ∃ s ∈ stagingRows,
                  evalRowClause (pairEnv hdel_root t s) (root_key_clause hdel_root) = true)) :=
  ⟨by simp, rfl,
    c4_materialized_key_set_delete hdel_root [hdel_child] false hdel_plan (by simp) rfl⟩

/-- C10: no statement of a generated plan mutates the staging dataset —
every statement creates, deletes from, or inserts into either a
target-dataset table or an intermediate key-set table; staging tables
occur only as the read side of SELECTs. -/
theorem c10_staging_dataset_never_mutated (table_chain : List TableSchema)
    (req : Bool) (stmts : List Stmt)
    (h : generate_stmts table_chain req = .ok stmts) :
    ∀ x ∈ stmts,
      (Stmt.writesTo x).dataset = DSet.target ∨ (Stmt.writesTo x).dataset = DSet.temp := by
  cases table_chain with
  | nil => exact Except.noConfusion h
  | cons root_table rest =>
    intro x hx
    rw [generate_stmts_ok_eq root_table rest req stmts h] at hx
    simp only [List.append_assoc, List.mem_append] at hx
    rcases hx with hx | hx | hx | hx
    · rw [delete_setup_stmts_writesTo root_table rest req x hx]
      exact Or.inr rfl
    · exact Or.inl (delete_stmts_writesTo_target root_table rest req x hx)
    · rw [insert_setup_stmts_writesTo root_table rest x hx]
      exact Or.inr rfl
    · exact Or.inl (insert_stmts_writesTo_target root_table rest x hx)

theorem c10_staging_dataset_never_mutated_witness :
    generate_stmts [hdel_root, hdel_child] false = .ok hdel_plan
      ∧ ∀ x ∈ hdel_plan,
          (Stmt.writesTo x).dataset = DSet.target
            ∨ (Stmt.writesTo x).dataset = DSet.temp :=
  ⟨rfl, c10_staging_dataset_never_mutated [hdel_root, hdel_child] false hdel_plan rfl⟩

/-- C7: for every successful generation the statement list is ordered as
(1) the delete-key-set materialization statements, (2) all delete
statements — the nested tables' deletes in chain order followed by the
root delete, a single root delete in the direct case — (3) the
insert-eligible key-set materialization statements when present, (4) all
insert statements in chain order; and every rendered statement string
ends with a semicolon terminator. -/
theorem c7_statement_order_and_termination (root_table : TableSchema)
    (rest : List TableSchema) (req : Bool) (stmts : List Stmt)
    (h : generate_stmts (root_table :: rest) req = .ok stmts) :
    stmts = delete_setup_stmts root_table rest req ++ delete_stmts root_table rest req
        ++ insert_setup_stmts root_table rest ++ insert_stmts root_table rest
      ∧ (∀ x ∈ delete_setup_stmts root_table rest req,
          Stmt.writesTo x = delete_temp_table_ref root_table)
      ∧ (∀ x ∈ delete_stmts root_table rest req, Stmt.isDeleteStmt x = true)
      ∧ (delete_stmts root_table rest req).map Stmt.writesTo
          = (if rest.length = 0 ∧ req = false then [root_table_ref root_table]
            else rest.map (fun t => (⟨DSet.target, t.name⟩ : TableRef))
              ++ [root_table_ref root_table])
      ∧ (∀ x ∈ insert_setup_stmts root_table rest,
          Stmt.writesTo x = insert_temp_table_ref root_table)
      ∧ (∀ x ∈ insert_stmts root_table rest, Stmt.isInsertStmt x = true)
      ∧ (insert_stmts root_table rest).map Stmt.writesTo
          = (root_table :: rest).map (fun t => (⟨DSet.target, t.name⟩ : TableRef))
      ∧ generate_sql (root_table :: rest) req
          = .ok (stmts.map (fun stmt => terminate (renderStmt stmt)))
      ∧ (∀ s ∈ stmts.map (fun stmt => terminate (renderStmt stmt)),
          ends_with_semicolon s = true) := by
  refine ⟨generate_stmts_ok_eq _ _ _ _ h,
    delete_setup_stmts_writesTo _ _ _,
    delete_stmts_all_delete _ _ _,
    delete_stmts_map_writesTo _ _ _,
    insert_setup_stmts_writesTo _ _,
    insert_stmts_all_insert _ _,
    insert_stmts_map_writesTo _ _,
    ?_, ?_⟩
  · simp [generate_sql, h, Except.map]
  · intro s hs
    rcases List.mem_map.mp hs with ⟨st, -, rfl⟩
    exact ends_with_semicolon_terminate _

theorem c7_statement_order_and_termination_witness :
    generate_stmts [hdel_root, hdel_child] false = .ok hdel_plan
      ∧ (hdel_plan
            = delete_setup_stmts hdel_root [hdel_child] false
              ++ delete_stmts hdel_root [hdel_child] false
              ++ insert_setup_stmts hdel_root [hdel_child]
              ++ insert_stmts hdel_root [hdel_child]
          ∧ (∀ x ∈ delete_setup_stmts hdel_root [hdel_child] false,
              Stmt.writesTo x = delete_temp_table_ref hdel_root)
          ∧ (∀ x ∈ delete_stmts hdel_root [hdel_child] false, Stmt.isDeleteStmt x = true)
          ∧ (delete_stmts hdel_root [hdel_child] false).map Stmt.writesTo
              = (if ([hdel_child] : List TableSchema).length = 0 ∧ false = false
                  then [root_table_ref hdel_root]
                else [hdel_child].map (fun t => (⟨DSet.target, t.name⟩ : TableRef))
                  ++ [root_table_ref hdel_root])
          ∧ (∀ x ∈ insert_setup_stmts hdel_root [hdel_child],
              Stmt.writesTo x = insert_temp_table_ref hdel_root)
          ∧ (∀ x ∈ insert_stmts hdel_root [hdel_child], Stmt.isInsertStmt x = true)
          ∧ (insert_stmts hdel_root [hdel_child]).map Stmt.writesTo
              = ([hdel_root, hdel_child] : List TableSchema).map
                  (fun t => (⟨DSet.target, t.name⟩ : TableRef))
          ∧ generate_sql [hdel_root, hdel_child] false
              = .ok (hdel_plan.map (fun stmt => terminate (renderStmt stmt)))
          ∧ (∀ s ∈ hdel_plan.map (fun stmt => terminate (renderStmt stmt)),
              ends_with_semicolon s = true)) :=
  ⟨rfl, c7_statement_order_and_termination hdel_root [hdel_child] false hdel_plan rfl⟩
